import Mathlib

/-!
Shallow embedding of `src/device_utils.cc` of the blaspp repository: a
compile-time-dispatched shim over three mutually exclusive GPU back ends
(CUDA via cuBLAS, ROCm via rocBLAS, SYCL via oneMKL), plus the stub build
with no backend configured.  The preprocessor configuration is modelled as
a `Backend` value; each C++ function becomes a Lean function taking the
backend and an explicit runtime state.  The vendor runtimes (cudaSetDevice,
hipFree, sycl::free, ...) are external collaborators, modelled from the
spec's description of their contract: a call either succeeds — recording
its observable effect on the runtime state and an event trace — or reports
an error code, which `blas_dev_call` turns into a thrown `blas::Error`
(the spec's `BackendRuntimeError`; its §7 names an invalid device id as
the example of such a failure).
-/

namespace Blaspp

/-- The compile-time backend selection: exactly one of `BLAS_HAVE_CUBLAS`,
`BLAS_HAVE_ROCBLAS`, `BLAS_HAVE_ONEMKL`, or none of the three. -/
inductive Backend where
  | cublas
  | rocblas
  | onemkl
  | noBackend
deriving DecidableEq, Repr

/-- Vendor runtime error codes, as far as `device_utils.cc` distinguishes
them: success, the "no device present" code (`cudaErrorNoDevice` /
`hipErrorNoDevice`), the invalid-device code returned by a set-device call
on an out-of-range identifier, and any other failure. -/
inductive DevErr where
  | success
  | noDevice
  | invalidDevice
  | otherError
deriving DecidableEq, Repr

/-- The type `blas::Error`: constructed either directly with a message and the value
of `__func__`, or by `blas_dev_call` from a failing vendor call. -/
inductive Error where
  | user (msg : String) (func : String)
  | dev (err : DevErr) (func : String)
deriving DecidableEq, Repr

/-- The spec's error taxonomy (§7), read off the exact message strings the
source throws: "unsupported function for sycl backend" is
`UnsupportedBackend`, "device BLAS not available" is `NoBackendConfigured`,
"unknown accelerator/gpu" is `UnknownBackend`, and a failing vendor call is
`BackendRuntimeError`. -/
inductive ErrorKind where
  | UnsupportedBackend
  | NoBackendConfigured
  | UnknownBackend
  | BackendRuntimeError
deriving DecidableEq, Repr

def Error.kind : Error → ErrorKind
  | .dev _ _ => .BackendRuntimeError
  | .user msg _ =>
      if msg = "unsupported function for sycl backend" then .UnsupportedBackend
      else if msg = "device BLAS not available" then .NoBackendConfigured
      else if msg = "unknown accelerator/gpu" then .UnknownBackend
      else .BackendRuntimeError

instance {ε α : Type} [DecidableEq ε] [DecidableEq α] : DecidableEq (Except ε α) :=
  fun a b =>
    match a, b with
    | .ok x, .ok y =>
        if h : x = y then isTrue (h ▸ rfl) else isFalse fun hh => h (Except.ok.inj hh)
    | .error e, .error f =>
        if h : e = f then isTrue (h ▸ rfl) else isFalse fun hh => h (Except.error.inj hh)
    | .ok _, .error _ => isFalse fun hh => Except.noConfusion hh
    | .error _, .ok _ => isFalse fun hh => Except.noConfusion hh

/-- A SYCL device as this layer observes it: an opaque identity plus the
`is_gpu()` classification. -/
structure SyclDevice where
  ident : Nat
  is_gpu : Bool
deriving DecidableEq, Repr

/-- Observable actions this layer issues against the vendor runtime. -/
inductive Event where
  | setDev (id : Int)
  | freeDev (ptr : Nat)
  | freeHost (ptr : Nat)
  | syclFreeEv (ptr : Nat) (stream : Nat)
deriving DecidableEq, Repr

/-- State of the vendor runtime, modelled from the spec: `numDevices`
devices are present; `currentDevice` is the process-global current-device
register (CUDA/ROCm only); `countErr` is the code the runtime's
get-device-count call reports and `getDevErr` the code its get-device call
reports; `platforms` is the SYCL platform/device enumeration; `trace`
logs the calls this layer issues. -/
structure RT where
  numDevices : Nat
  currentDevice : Int
  countErr : DevErr
  getDevErr : DevErr
  platforms : List (List SyclDevice)
  trace : List Event
deriving DecidableEq, Repr

/-- Vendor `cudaSetDevice` / `hipSetDevice`: sets the process-global current
device when the identifier is in range, else fails with the
invalid-device code and leaves the state unchanged. -/
def cudaSetDevice (rt : RT) (device : Int) : DevErr × RT :=
  if 0 ≤ device ∧ device < (rt.numDevices : Int) then
    (.success, { rt with currentDevice := device, trace := rt.trace ++ [.setDev device] })
  else
    (.invalidDevice, rt)

def hipSetDevice : RT → Int → DevErr × RT := cudaSetDevice

/-- Vendor `cudaGetDevice` / `hipGetDevice`: reports `getDevErr`; on success the
queried value is the global current device (the out-argument is left at
whatever the caller initialized it to on failure). -/
def cudaGetDevice (rt : RT) (dev0 : Int) : DevErr × Int :=
  match rt.getDevErr with
  | .success => (.success, rt.currentDevice)
  | e => (e, dev0)

def hipGetDevice : RT → Int → DevErr × Int := cudaGetDevice

/-- Vendor `cudaGetDeviceCount` / `hipGetDeviceCount`: reports `countErr`; on
success the count of present devices, on any failure the out-count is 0. -/
def cudaGetDeviceCount (rt : RT) : DevErr × Int :=
  match rt.countErr with
  | .success => (.success, (rt.numDevices : Int))
  | e => (e, 0)

def hipGetDeviceCount : RT → DevErr × Int := cudaGetDeviceCount

/-- Vendor `cudaFree` / `hipFree`: releases the externally owned handle; within
the allocation module's contract (one free of a valid handle) the call
succeeds, logging the release. -/
def cudaFree (rt : RT) (ptr : Nat) : DevErr × RT :=
  (.success, { rt with trace := rt.trace ++ [.freeDev ptr] })

def hipFree : RT → Nat → DevErr × RT := cudaFree

/-- Vendor `cudaFreeHost` / `hipHostFree`: releases a pinned host handle. -/
def cudaFreeHost (rt : RT) (ptr : Nat) : DevErr × RT :=
  (.success, { rt with trace := rt.trace ++ [.freeHost ptr] })

def hipHostFree : RT → Nat → DevErr × RT := cudaFreeHost

/-- Vendor `sycl::free( ptr, queue.stream() )`: queue-scoped release. -/
def syclFree (rt : RT) (ptr : Nat) (stream : Nat) : DevErr × RT :=
  (.success, { rt with trace := rt.trace ++ [.syclFreeEv ptr stream] })

/-- Vendor `sycl::platform::get_platforms()`. -/
def get_platforms (rt : RT) : List (List SyclDevice) := rt.platforms

/-- Macro `blas_dev_call`: checks a vendor call's error code and throws
`blas::Error` on anything but success. -/
def blas_dev_call (err : DevErr) (func : String) : Except Error Unit :=
  match err with
  | .success => .ok ()
  | e => .error (.dev e func)

/-- The type `blas::Queue` as this layer sees it (spec §2/§6): a device identifier
and a native stream handle. -/
structure Queue where
  device : Int
  stream : Nat
deriving DecidableEq, Repr

/-- Source `void blas::set_device( int device )` (deprecated). -/
def set_device (b : Backend) (rt : RT) (device : Int) : Except Error RT :=
  match b with
  | .cublas =>
      let (err, rt') := cudaSetDevice rt device
      (blas_dev_call err "set_device").map fun _ => rt'
  | .rocblas =>
      let (err, rt') := hipSetDevice rt device
      (blas_dev_call err "set_device").map fun _ => rt'
  | .onemkl => .error (.user "unsupported function for sycl backend" "set_device")
  | .noBackend => .error (.user "device BLAS not available" "set_device")

/-- Source `void blas::internal_set_device( int device )`. -/
def internal_set_device (b : Backend) (rt : RT) (device : Int) : Except Error RT :=
  match b with
  | .cublas =>
      let (err, rt') := cudaSetDevice rt device
      (blas_dev_call err "internal_set_device").map fun _ => rt'
  | .rocblas =>
      let (err, rt') := hipSetDevice rt device
      (blas_dev_call err "internal_set_device").map fun _ => rt'
  | .onemkl => .ok rt
  | .noBackend => .error (.user "unknown accelerator/gpu" "internal_set_device")

/-- Source `void blas::get_device( int *device )` (deprecated).  The caller's
variable is passed in as `deviceVar` and its final value returned alongside
the outcome, so that writes through the pointer are observable. -/
def get_device (b : Backend) (rt : RT) (deviceVar : Int) : Except Error Unit × Int :=
  match b with
  | .cublas =>
      let dev : Int := -1
      let (err, dev) := cudaGetDevice rt dev
      match blas_dev_call err "get_device" with
      | .ok _ => (.ok (), dev)
      | .error e => (.error e, deviceVar)
  | .rocblas =>
      let dev : Int := -1
      let (err, dev) := hipGetDevice rt dev
      match blas_dev_call err "get_device" with
      | .ok _ => (.ok (), dev)
      | .error e => (.error e, deviceVar)
  | .onemkl => (.error (.user "unsupported function for sycl backend" "get_device"), deviceVar)
  | .noBackend => (.error (.user "device BLAS not available" "get_device"), deviceVar)

/-- Source `device_blas_int blas::get_device_count()`. -/
def get_device_count (b : Backend) (rt : RT) : Except Error Int :=
  let dev_count : Int := 0
  match b with
  | .cublas =>
      let (err, dev_count) := cudaGetDeviceCount rt
      if err ≠ .success ∧ err ≠ .noDevice then
        (blas_dev_call err "get_device_count").map fun _ => dev_count
      else .ok dev_count
  | .rocblas =>
      let (err, dev_count) := hipGetDeviceCount rt
      if err ≠ .success ∧ err ≠ .noDevice then
        (blas_dev_call err "get_device_count").map fun _ => dev_count
      else .ok dev_count
  | .onemkl =>
      .ok ((get_platforms rt).foldl
        (fun acc devices =>
          devices.foldl (fun acc2 device => acc2 + (if device.is_gpu then 1 else 0)) acc)
        dev_count)
  | .noBackend => .ok dev_count

/-- Source `void blas::enumerate_devices( std::vector<sycl::device> &devices )`
(compiled only under `BLAS_HAVE_ONEMKL`); the vector is passed in and the
resulting vector returned. -/
def enumerate_devices (rt : RT) (devices : List SyclDevice) : List SyclDevice :=
  match get_device_count .onemkl rt with
  | .error _ => devices
  | .ok dev_count =>
      let devices := if (devices.length : Int) ≠ dev_count then [] else devices
      (get_platforms rt).foldl
        (fun devs all_devices =>
          all_devices.foldl
            (fun ds idevice => if idevice.is_gpu then ds ++ [idevice] else ds)
            devs)
        devices

/-- Source `void blas::device_free( void* ptr )` (deprecated, no queue). -/
def device_free (b : Backend) (rt : RT) (ptr : Nat) : Except Error RT :=
  match b with
  | .cublas =>
      let (err, rt') := cudaFree rt ptr
      (blas_dev_call err "device_free").map fun _ => rt'
  | .rocblas =>
      let (err, rt') := hipFree rt ptr
      (blas_dev_call err "device_free").map fun _ => rt'
  | .onemkl => .error (.user "unsupported function for sycl backend" "device_free")
  | .noBackend => .error (.user "device BLAS not available" "device_free")

/-- Source `void blas::device_free( void* ptr, blas::Queue &queue )`.  Note the
source has no `#else` branch: a no-backend build falls through and
returns normally. -/
def device_free_queue (b : Backend) (rt : RT) (ptr : Nat) (queue : Queue) :
    Except Error RT :=
  match b with
  | .cublas =>
      match internal_set_device .cublas rt queue.device with
      | .error e => .error e
      | .ok rt' =>
          let (err, rt'') := cudaFree rt' ptr
          (blas_dev_call err "device_free").map fun _ => rt''
  | .rocblas =>
      match internal_set_device .rocblas rt queue.device with
      | .error e => .error e
      | .ok rt' =>
          let (err, rt'') := hipFree rt' ptr
          (blas_dev_call err "device_free").map fun _ => rt''
  | .onemkl =>
      let (err, rt') := syclFree rt ptr queue.stream
      (blas_dev_call err "device_free").map fun _ => rt'
  | .noBackend => .ok rt

/-- Source `void blas::host_free_pinned( void* ptr )` (deprecated, no queue). -/
def host_free_pinned (b : Backend) (rt : RT) (ptr : Nat) : Except Error RT :=
  match b with
  | .cublas =>
      let (err, rt') := cudaFreeHost rt ptr
      (blas_dev_call err "host_free_pinned").map fun _ => rt'
  | .rocblas =>
      let (err, rt') := hipHostFree rt ptr
      (blas_dev_call err "host_free_pinned").map fun _ => rt'
  | .onemkl => .error (.user "unsupported function for sycl backend" "host_free_pinned")
  | .noBackend => .error (.user "device BLAS not available" "host_free_pinned")

/-- Source `void blas::host_free_pinned( void* ptr, blas::Queue &queue )`.  Unlike
the queue overload of `device_free`, this one does have an `#else` branch
throwing "device BLAS not available". -/
def host_free_pinned_queue (b : Backend) (rt : RT) (ptr : Nat) (queue : Queue) :
    Except Error RT :=
  match b with
  | .cublas =>
      let (err, rt') := cudaFreeHost rt ptr
      (blas_dev_call err "host_free_pinned").map fun _ => rt'
  | .rocblas =>
      let (err, rt') := hipHostFree rt ptr
      (blas_dev_call err "host_free_pinned").map fun _ => rt'
  | .onemkl =>
      let (err, rt') := syclFree rt ptr queue.stream
      (blas_dev_call err "host_free_pinned").map fun _ => rt'
  | .noBackend => .error (.user "device BLAS not available" "host_free_pinned")

/-! ## Helper lemmas on the SYCL enumeration loops -/

/-- All GPU-capable devices across the platforms, in platform-then-device
enumeration order: what the two nested loops of `enumerate_devices` push. -/
def gpuDevices (platforms : List (List SyclDevice)) : List SyclDevice :=
  (platforms.map fun devs => devs.filter fun d => d.is_gpu).flatten

theorem foldl_push_gpu (ds : List SyclDevice) (acc : List SyclDevice) :
    ds.foldl (fun a d => if d.is_gpu then a ++ [d] else a) acc
      = acc ++ ds.filter fun d => d.is_gpu := by
  induction ds generalizing acc with
  | nil => simp
  | cons d ds ih =>
      by_cases h : d.is_gpu = true <;>
        simp [h, ih, List.filter_cons]

theorem foldl_push_gpu_outer (ps : List (List SyclDevice)) (acc : List SyclDevice) :
    ps.foldl
        (fun devs ad => ad.foldl (fun ds i => if i.is_gpu then ds ++ [i] else ds) devs) acc
      = acc ++ gpuDevices ps := by
  induction ps generalizing acc with
  | nil => simp [gpuDevices]
  | cons p ps ih =>
      simp only [List.foldl_cons]
      rw [foldl_push_gpu, ih]
      simp [gpuDevices, List.append_assoc]

theorem foldl_count_gpu (ds : List SyclDevice) (acc : Int) :
    ds.foldl (fun a d => a + (if d.is_gpu then 1 else 0)) acc
      = acc + (((ds.filter fun d => d.is_gpu).length : Nat) : Int) := by
  induction ds generalizing acc with
  | nil => simp
  | cons d ds ih =>
      by_cases h : d.is_gpu = true
      · simp [h, ih, List.filter_cons]
        ring
      · simp [h, ih, List.filter_cons]

theorem foldl_count_gpu_outer (ps : List (List SyclDevice)) (acc : Int) :
    ps.foldl
        (fun a devices => devices.foldl (fun a2 d => a2 + (if d.is_gpu then 1 else 0)) a) acc
      = acc + (((gpuDevices ps).length : Nat) : Int) := by
  induction ps generalizing acc with
  | nil => simp [gpuDevices]
  | cons p ps ih =>
      simp only [List.foldl_cons]
      rw [foldl_count_gpu, ih]
      simp only [gpuDevices, List.map_cons, List.flatten_cons, List.length_append]
      push_cast
      ring

/-- Under `BLAS_HAVE_ONEMKL`, `get_device_count` returns the number of
GPU-capable devices across all platforms. -/
theorem get_device_count_onemkl (rt : RT) :
    get_device_count .onemkl rt = .ok (((gpuDevices rt.platforms).length : Nat) : Int) := by
  simp [get_device_count, get_platforms, foldl_count_gpu_outer]

theorem mem_gpuDevices (ps : List (List SyclDevice)) (d : SyclDevice)
    (hd : d ∈ gpuDevices ps) : d.is_gpu = true := by
  simp only [gpuDevices, List.mem_flatten, List.mem_map] at hd
  obtain ⟨l, ⟨devs, _, hfil⟩, hdl⟩ := hd
  subst hfil
  exact (List.mem_filter.mp hdl).2

/-- Closed form of `enumerate_devices`: the initial vector is cleared
exactly when its size differs from the GPU count, and the GPU devices are
then appended to whatever remains. -/
theorem enumerate_devices_eq (rt : RT) (devices : List SyclDevice) :
    enumerate_devices rt devices
      = (if (devices.length : Int) ≠ (((gpuDevices rt.platforms).length : Nat) : Int)
          then [] else devices)
        ++ gpuDevices rt.platforms := by
  simp only [enumerate_devices, get_device_count_onemkl, get_platforms, foldl_push_gpu_outer]

/-! ## C1: enumerate_devices versus get_device_count -/

/-- A SYCL runtime with exactly one GPU device on one platform. -/
def C1rt : RT := ⟨0, 0, .success, .success, [[⟨0, true⟩]], []⟩

/-- An initial vector whose size (1) already equals the device count (1),
holding a non-GPU element. -/
def C1devs : List SyclDevice := [⟨5, false⟩]

/-- C1 counterexample: with one GPU present and an initial vector of
matching size 1, `enumerate_devices` does not clear the vector but appends,
so the final size is 2, not `get_device_count()`'s value 1, and the stale
non-GPU element survives. -/
theorem C1_counterexample :
    ¬ (get_device_count .onemkl C1rt
          = .ok (((enumerate_devices C1rt C1devs).length : Nat) : Int)
        ∧ ∀ d ∈ enumerate_devices C1rt C1devs, d.is_gpu = true) := by
  decide

/-- C1 (amended): on a SYCL-class build, whenever the initial size of `out`
differs from `get_device_count()`'s value, after `enumerate_devices(out)`
returns the size of `out` equals that value and every element of `out`
reports itself as GPU-capable (the vector having been cleared before
repopulation); when the initial size already equals a nonzero count, the
vector is not cleared and the GPU devices are appended to the stale
content. -/
theorem C1_enumerate_devices_count (rt : RT) (devices : List SyclDevice)
    (h : get_device_count .onemkl rt ≠ .ok ((devices.length : Nat) : Int)) :
    get_device_count .onemkl rt
        = .ok (((enumerate_devices rt devices).length : Nat) : Int)
      ∧ ∀ d ∈ enumerate_devices rt devices, d.is_gpu = true := by
  have hc := get_device_count_onemkl rt
  have hne : ((devices.length : Nat) : Int) ≠ (((gpuDevices rt.platforms).length : Nat) : Int) := by
    intro he
    exact h (by rw [hc, he])
  rw [enumerate_devices_eq, if_pos hne, List.nil_append]
  refine ⟨hc, ?_⟩
  intro d hd
  exact mem_gpuDevices rt.platforms d hd

/-- Witness for C1: a runtime with one GPU device and an initially empty
vector (size 0 ≠ count 1). -/
theorem C1_enumerate_devices_count_witness :
    get_device_count .onemkl C1rt
        = .ok (((enumerate_devices C1rt []).length : Nat) : Int)
      ∧ ∀ d ∈ enumerate_devices C1rt [], d.is_gpu = true :=
  C1_enumerate_devices_count C1rt [] (by decide)

/-! ## C2: host_free_pinned( ptr, queue ) -/

/-- A runtime with one device and an empty platform list. -/
def rt0 : RT := ⟨1, 0, .success, .success, [], []⟩

/-- A queue on device 0 with stream handle 7. -/
def q0 : Queue := ⟨0, 7⟩

/-- C2 counterexample: on a no-backend build, `host_free_pinned(ptr, queue)`
throws "device BLAS not available", whose kind in the spec's taxonomy is
`NoBackendConfigured`, not `UnsupportedBackend` as the claim states. -/
theorem C2_counterexample :
    host_free_pinned_queue .noBackend rt0 0 q0
        = .error (.user "device BLAS not available" "host_free_pinned")
      ∧ (Error.user "device BLAS not available" "host_free_pinned").kind
          = .NoBackendConfigured
      ∧ ((Error.user "device BLAS not available" "host_free_pinned").kind
          = ErrorKind.UnsupportedBackend) = False := by
  refine ⟨rfl, by decide, by decide⟩

/-- C2 (amended): for every pointer and queue, `host_free_pinned(ptr, queue)`
succeeds (returns void) on every configured backend (CUDA-class, ROCm-class,
SYCL-class), and fails with the `NoBackendConfigured` error kind (message
"device BLAS not available") when no backend is configured. -/
theorem C2_host_free_pinned_queue (b : Backend) (rt : RT) (ptr : Nat) (q : Queue) :
    (b ≠ .noBackend → ∃ rt', host_free_pinned_queue b rt ptr q = .ok rt')
      ∧ (b = .noBackend → ∃ e, host_free_pinned_queue b rt ptr q = .error e
          ∧ e.kind = .NoBackendConfigured) := by
  cases b with
  | cublas => exact ⟨fun _ => ⟨_, rfl⟩, fun h => Backend.noConfusion h⟩
  | rocblas => exact ⟨fun _ => ⟨_, rfl⟩, fun h => Backend.noConfusion h⟩
  | onemkl => exact ⟨fun _ => ⟨_, rfl⟩, fun h => Backend.noConfusion h⟩
  | noBackend => exact ⟨fun h => absurd rfl h, fun _ => ⟨_, rfl, by decide⟩⟩

/-! ## C4: deprecated no-queue overloads on a SYCL-class build -/

/-- C4: on a SYCL-class build, every deprecated no-queue overload —
`set_device(id)`, `get_device()`, `device_free(ptr)`,
`host_free_pinned(ptr)` — fails with the `UnsupportedBackend` error kind
(never silently succeeds), for every argument value. -/
theorem C4_sycl_deprecated_unsupported (rt : RT) (device deviceVar : Int) (ptr : Nat) :
    (∃ e, set_device .onemkl rt device = .error e ∧ e.kind = .UnsupportedBackend)
      ∧ (∃ e, (get_device .onemkl rt deviceVar).1 = .error e ∧ e.kind = .UnsupportedBackend)
      ∧ (∃ e, device_free .onemkl rt ptr = .error e ∧ e.kind = .UnsupportedBackend)
      ∧ (∃ e, host_free_pinned .onemkl rt ptr = .error e ∧ e.kind = .UnsupportedBackend) :=
  ⟨⟨_, rfl, by decide⟩, ⟨_, rfl, by decide⟩, ⟨_, rfl, by decide⟩, ⟨_, rfl, by decide⟩⟩

/-! ## C5: the no-backend build -/

/-- C5: on a build with no backend configured, `get_device_count()` returns
0, and `set_device(id)`, `get_device()`, `device_free(ptr)` and
`host_free_pinned(ptr)` all fail with the `NoBackendConfigured` error kind,
for every argument value. -/
theorem C5_no_backend_errors (rt : RT) (device deviceVar : Int) (ptr : Nat) :
    get_device_count .noBackend rt = .ok 0
      ∧ (∃ e, set_device .noBackend rt device = .error e ∧ e.kind = .NoBackendConfigured)
      ∧ (∃ e, (get_device .noBackend rt deviceVar).1 = .error e
          ∧ e.kind = .NoBackendConfigured)
      ∧ (∃ e, device_free .noBackend rt ptr = .error e ∧ e.kind = .NoBackendConfigured)
      ∧ (∃ e, host_free_pinned .noBackend rt ptr = .error e
          ∧ e.kind = .NoBackendConfigured) :=
  ⟨rfl, ⟨_, rfl, by decide⟩, ⟨_, rfl, by decide⟩, ⟨_, rfl, by decide⟩, ⟨_, rfl, by decide⟩⟩

/-! ## C3: device_free( ptr, queue ) -/

/-- C3: for every pointer and queue, `device_free(ptr, queue)` on a
CUDA-class or ROCm-class build first sets the process-global current device
to the queue's device identifier and then frees the pointer (the trace
records the set-device call before the free); on a SYCL-class build it
frees using the queue's native stream context with no global device-affinity
step (the current-device register is untouched and no set-device call is
issued); on a build with no backend configured it returns without raising
any error, leaving the state unchanged. -/
theorem C3_device_free_queue (rt : RT) (ptr : Nat) (q : Queue) :
    (∀ b rt', (b = .cublas ∨ b = .rocblas) → device_free_queue b rt ptr q = .ok rt' →
        rt'.trace = rt.trace ++ [.setDev q.device, .freeDev ptr]
          ∧ rt'.currentDevice = q.device)
      ∧ device_free_queue .onemkl rt ptr q
          = .ok { rt with trace := rt.trace ++ [.syclFreeEv ptr q.stream] }
      ∧ device_free_queue .noBackend rt ptr q = .ok rt := by
  refine ⟨?_, rfl, rfl⟩
  rintro b rt' (rfl | rfl) h <;>
  · by_cases hv : 0 ≤ q.device ∧ q.device < (rt.numDevices : Int)
    · simp only [device_free_queue, internal_set_device, cudaSetDevice, hipSetDevice,
        cudaFree, hipFree, blas_dev_call, Except.map, if_pos hv] at h
      cases Except.ok.inj h
      simp
    · simp only [device_free_queue, internal_set_device, cudaSetDevice, hipSetDevice,
        cudaFree, hipFree, blas_dev_call, Except.map, if_neg hv] at h
      exact Except.noConfusion h

/-! ## C6: get_device_count across configurations -/

/-- C6: under every backend configuration `get_device_count()` only ever
returns a non-negative value; with no backend compiled in it returns exactly
0; on CUDA-class or ROCm-class builds a runtime "no device present" code
yields 0 rather than an error, while any other runtime error is surfaced as
a thrown error. -/
theorem C6_get_device_count_nonneg (b : Backend) (rt : RT) :
    (∀ n, get_device_count b rt = .ok n → 0 ≤ n)
      ∧ get_device_count .noBackend rt = .ok 0
      ∧ (rt.countErr = .noDevice →
          get_device_count .cublas rt = .ok 0 ∧ get_device_count .rocblas rt = .ok 0)
      ∧ ((rt.countErr ≠ .success ∧ rt.countErr ≠ .noDevice) →
          (∃ e, get_device_count .cublas rt = .error e)
            ∧ ∃ e, get_device_count .rocblas rt = .error e) := by
  refine ⟨?_, rfl, ?_, ?_⟩
  · intro n hn
    cases b with
    | cublas =>
        simp only [get_device_count, cudaGetDeviceCount] at hn
        cases hc : rt.countErr <;> simp [hc, blas_dev_call, Except.map] at hn <;> omega
    | rocblas =>
        simp only [get_device_count, hipGetDeviceCount, cudaGetDeviceCount] at hn
        cases hc : rt.countErr <;> simp [hc, blas_dev_call, Except.map] at hn <;> omega
    | onemkl =>
        rw [get_device_count_onemkl] at hn
        cases hn
        exact Int.natCast_nonneg _
    | noBackend =>
        simp only [get_device_count] at hn
        cases hn
        exact le_refl 0
  · intro hc
    constructor <;>
      simp [get_device_count, cudaGetDeviceCount, hipGetDeviceCount, hc, blas_dev_call]
  · rintro ⟨h1, h2⟩
    constructor <;>
    · cases hc : rt.countErr <;>
        simp_all [get_device_count, cudaGetDeviceCount, hipGetDeviceCount,
          blas_dev_call, Except.map]

/-! ## C7: internal_set_device -/

/-- A CUDA runtime with exactly one device, so identifier 5 is out of
range. -/
def C7rt : RT := ⟨1, 0, .success, .success, [], []⟩

/-- C7 counterexample: on a CUDA-class build with one device present,
`internal_set_device(5)` does not succeed: the vendor set-device call
reports an invalid device and `blas_dev_call` throws, with kind
`BackendRuntimeError`.  So the internal device-set operation does not
succeed for every identifier on a CUDA-class build. -/
theorem C7_counterexample :
    internal_set_device .cublas C7rt 5
        = .error (.dev .invalidDevice "internal_set_device")
      ∧ (Error.dev .invalidDevice "internal_set_device").kind = .BackendRuntimeError := by
  exact ⟨rfl, rfl⟩

/-- C7 (amended): `internal_set_device(id)` succeeds on CUDA-class and
ROCm-class builds for every in-range device identifier and fails with
`BackendRuntimeError` for an out-of-range one; on a SYCL-class build it is
a no-op that succeeds for every identifier; and it fails with the
`UnknownBackend` error kind if and only if no backend is configured. -/
theorem C7_internal_set_device (rt : RT) (device : Int) :
    ((0 ≤ device ∧ device < (rt.numDevices : Int)) →
        (∃ rt', internal_set_device .cublas rt device = .ok rt')
          ∧ ∃ rt', internal_set_device .rocblas rt device = .ok rt')
      ∧ (¬ (0 ≤ device ∧ device < (rt.numDevices : Int)) →
          (∃ e, internal_set_device .cublas rt device = .error e
              ∧ e.kind = .BackendRuntimeError)
            ∧ ∃ e, internal_set_device .rocblas rt device = .error e
                ∧ e.kind = .BackendRuntimeError)
      ∧ internal_set_device .onemkl rt device = .ok rt
      ∧ (∀ b, (∃ e, internal_set_device b rt device = .error e
            ∧ e.kind = .UnknownBackend) ↔ b = .noBackend) := by
  refine ⟨?_, ?_, rfl, ?_⟩
  · intro h
    constructor <;>
    · simp only [internal_set_device, cudaSetDevice, hipSetDevice, if_pos h,
        blas_dev_call, Except.map]
      exact ⟨_, rfl⟩
  · intro h
    constructor <;>
    · simp only [internal_set_device, cudaSetDevice, hipSetDevice, if_neg h,
        blas_dev_call, Except.map]
      exact ⟨_, rfl, rfl⟩
  · intro b
    constructor
    · rintro ⟨e, he, hk⟩
      cases b with
      | cublas =>
          by_cases hv : 0 ≤ device ∧ device < (rt.numDevices : Int)
          · simp [internal_set_device, cudaSetDevice, if_pos hv, blas_dev_call,
              Except.map] at he
          · simp only [internal_set_device, cudaSetDevice, if_neg hv, blas_dev_call,
              Except.map] at he
            cases Except.error.inj he
            simp [Error.kind] at hk
      | rocblas =>
          by_cases hv : 0 ≤ device ∧ device < (rt.numDevices : Int)
          · simp [internal_set_device, hipSetDevice, cudaSetDevice, if_pos hv,
              blas_dev_call, Except.map] at he
          · simp only [internal_set_device, hipSetDevice, cudaSetDevice, if_neg hv,
              blas_dev_call, Except.map] at he
            cases Except.error.inj he
            simp [Error.kind] at hk
      | onemkl => simp [internal_set_device] at he
      | noBackend => rfl
    · rintro rfl
      exact ⟨_, rfl, by decide⟩

/-! ## C8: set_device / get_device round trip -/

/-- C8: on a CUDA-class or ROCm-class build, for every valid device
identifier, `set_device(id)` followed immediately by `get_device()` yields
`id`: the identifier round-trips through the backend's global
current-device register. -/
theorem C8_set_get_round_trip (b : Backend) (rt : RT) (id deviceVar : Int)
    (hb : b = .cublas ∨ b = .rocblas) (h0 : 0 ≤ id) (h1 : id < (rt.numDevices : Int))
    (hg : rt.getDevErr = .success) :
    ∃ rt', set_device b rt id = .ok rt' ∧ get_device b rt' deviceVar = (.ok (), id) := by
  rcases hb with rfl | rfl <;>
  · simp only [set_device, get_device, cudaSetDevice, hipSetDevice, cudaGetDevice,
      hipGetDevice, if_pos (And.intro h0 h1), blas_dev_call, Except.map]
    exact ⟨_, rfl, by simp [hg]⟩

/-- Witness for C8: a CUDA-class runtime with one device; device 0
round-trips. -/
theorem C8_set_get_round_trip_witness :
    ∃ rt', set_device .cublas (RT.mk 1 5 .success .success [] []) 0 = .ok rt'
      ∧ get_device .cublas rt' 9 = (.ok (), 0) :=
  C8_set_get_round_trip .cublas (RT.mk 1 5 .success .success [] []) 0 9
    (Or.inl rfl) (by decide) (by decide) rfl

/-! ## C9: get_device writes through the pointer only on success -/

/-- C9: whenever `get_device(device)` fails — and on SYCL-class and
no-backend builds it always fails — the error is raised before anything is
written through the device pointer, so the caller's variable is unchanged
on error; on CUDA-class and ROCm-class builds the queried current device is
stored through the pointer exactly when the runtime call succeeds. -/
theorem C9_get_device_no_write_on_error (b : Backend) (rt : RT) (deviceVar : Int) :
    (∀ e, (get_device b rt deviceVar).1 = .error e →
        (get_device b rt deviceVar).2 = deviceVar)
      ∧ ((b = .cublas ∨ b = .rocblas) → rt.getDevErr = .success →
          (get_device b rt deviceVar).1 = .ok ()
            ∧ (get_device b rt deviceVar).2 = rt.currentDevice) := by
  constructor
  · intro e he
    cases b <;>
      cases hg : rt.getDevErr <;>
        simp_all [get_device, cudaGetDevice, hipGetDevice, blas_dev_call]
  · rintro (rfl | rfl) hg <;> simp [get_device, cudaGetDevice, hipGetDevice, hg,
      blas_dev_call]

/-! ## C10: device_free( ptr, queue ) leaves the current device set -/

/-- C10: on a CUDA-class or ROCm-class build, a successful
`device_free(ptr, queue)` leaves the backend's process-global
current-device register equal to the queue's device identifier; the rest of
the resulting state shows the previously current device is neither saved
nor restored, so the side effect on global device affinity persists. -/
theorem C10_device_free_queue_sets_current (b : Backend) (rt : RT) (ptr : Nat)
    (q : Queue) (rt' : RT) (hb : b = .cublas ∨ b = .rocblas)
    (h : device_free_queue b rt ptr q = .ok rt') :
    rt'.currentDevice = q.device
      ∧ rt' = { rt with
          currentDevice := q.device,
          trace := rt.trace ++ [.setDev q.device, .freeDev ptr] } := by
  rcases hb with rfl | rfl <;>
  · by_cases hv : 0 ≤ q.device ∧ q.device < (rt.numDevices : Int)
    · simp only [device_free_queue, internal_set_device, cudaSetDevice, hipSetDevice,
        cudaFree, hipFree, blas_dev_call, Except.map, if_pos hv] at h
      cases Except.ok.inj h
      simp
    · simp only [device_free_queue, internal_set_device, cudaSetDevice, hipSetDevice,
        cudaFree, hipFree, blas_dev_call, Except.map, if_neg hv] at h
      exact Except.noConfusion h

/-- Witness for C10: freeing on a queue bound to device 0 from a runtime
whose current device was 5 leaves the register at 0. -/
theorem C10_device_free_queue_sets_current_witness :
    (RT.mk 1 0 .success .success [] [.setDev 0, .freeDev 3]).currentDevice
        = (Queue.mk 0 2).device
      ∧ (RT.mk 1 0 .success .success [] [.setDev 0, .freeDev 3])
          = { RT.mk 1 5 .success .success [] [] with
              currentDevice := (Queue.mk 0 2).device,
              trace := (RT.mk 1 5 .success .success [] []).trace
                ++ [.setDev (Queue.mk 0 2).device, .freeDev 3] } :=
  C10_device_free_queue_sets_current .cublas (RT.mk 1 5 .success .success [] []) 3
    (Queue.mk 0 2) (RT.mk 1 0 .success .success [] [.setDev 0, .freeDev 3])
    (Or.inl rfl) rfl

end Blaspp
